import Mathlib

/-!
# Verification of the vibe-blog tutorial quality-evaluation pipeline

A shallow embedding, in Lean 4, of the evaluation pipeline under
`backend/vibe_reviewer/`: the content analyzer, the search agent, the
reference manager, the three evaluators (depth, quality, readability),
the improver, the score aggregator, and the chapter model's hash lookup.

Python strings are modelled as `List Char`; Python floats as `ℚ`;
Python ints as `ℤ`.  Calls into external capabilities (the LLM chat
service, the web-search service, the standard-library JSON decoder)
are parameters of the embedded functions: an LLM call either raises or
returns a string, a JSON decode either fails or returns a decoded
value.
-/

/-! ## Python string primitives -/

/-- Python `str.strip()`: drop whitespace from both ends. -/
def pyStrip (l : List Char) : List Char :=
  ((l.dropWhile Char.isWhitespace).reverse.dropWhile Char.isWhitespace).reverse

/-- Python `pat in s`: substring containment. -/
def pyContains (l pat : List Char) : Bool :=
  decide (pat <:+: l)

/-- Python `s.find(pat, start)`: the least index `≥ start` at which `pat`
occurs in `l`, or `-1` when there is none. -/
def pyFind (l pat : List Char) (start : Nat) : Int :=
  match (List.range (l.length + 1)).find?
      (fun j => start ≤ j && List.isPrefixOf pat (l.drop j)) with
  | some j => (j : Int)
  | none => -1

/-- Clamp a Python slice index (possibly negative, meaning from the end)
to an absolute position in a list of length `n`. -/
def pyIdx (n : Nat) (i : Int) : Nat :=
  if i < 0 then (max ((n : Int) + i) 0).toNat else min i.toNat n

/-- Python `s[a:b]` (both bounds possibly negative). -/
def pySlice (l : List Char) (a b : Int) : List Char :=
  (l.take (pyIdx l.length b)).drop (pyIdx l.length a)

/-- Python `s[:k]` for `k ≥ 0`. -/
def pyTake (l : List Char) (k : Nat) : List Char := l.take k

/-- Python `s.split()`: split on whitespace runs, dropping empty pieces. -/
def pySplit (l : List Char) : List (List Char) :=
  (l.splitOnP Char.isWhitespace).filter (· ≠ [])

/-- Python `s.lower()` (ASCII case folding). -/
def pyLower (l : List Char) : List Char := l.map Char.toLower

/-- Python `' '.join(ws)`. -/
def pyJoinSpace (ws : List (List Char)) : List Char :=
  (ws.intersperse [' ']).flatten

/-- Python truncation `int(x)` on a float (here a rational): toward zero. -/
def pyTrunc (x : ℚ) : ℤ :=
  if 0 ≤ x then ⌊x⌋ else ⌈x⌉

/-- Stable insertion of `a` into `l`: `a` goes in front of the first
element `b` with `le a b` (so in front of later equal elements, behind
earlier ones). -/
def insortBy (le : α → α → Bool) (a : α) : List α → List α
  | [] => [a]
  | b :: rest => if le a b then a :: b :: rest else b :: insortBy le a rest

/-- Python `list.sort(key=...)`: a stable sort.  Any stable sort
computes the same list, so insertion sort is an exact model of
Python's. -/
def pySort (le : α → α → Bool) : List α → List α
  | [] => []
  | a :: rest => insortBy le a (pySort le rest)

/-! ## The decoded-JSON value model

`json.loads` is an external standard-library call; the embedding takes
the decoder as a parameter `jsonLoads : List Char → Option Json`,
`none` standing for a raised `json.JSONDecodeError`. -/

/-- A decoded Python JSON value. -/
inductive Json where
  | null : Json
  | bool (b : Bool) : Json
  | int (n : ℤ) : Json
  | float (q : ℚ) : Json
  | str (s : List Char) : Json
  | arr (xs : List Json) : Json
  | obj (kvs : List (List Char × Json)) : Json

/-- `data.get(key)` on a decoded dict: the first binding of `key`, if any.
Returns `none` also when the value is not a dict (the caller models the
`AttributeError` separately). -/
def Json.get? (j : Json) (key : List Char) : Option Json :=
  match j with
  | .obj kvs =>
    match kvs.find? (fun kv => kv.1 = key) with
    | some kv => some kv.2
    | none => none
  | _ => none

/-- Whether the decoded value is a dict; `.get` on anything else raises
`AttributeError` in Python. -/
def Json.isObj : Json → Bool
  | .obj _ => true
  | _ => false

/-- Python `str(...)`-free field read `d.get(key, default)` where the
default and the expected value are strings: a non-string JSON value is
passed through as whatever it is; components below only ever store it,
so the embedding keeps string fields as the decoded string when present
and the default otherwise (a non-string decoded value is normalised by
`Json.asStr`). -/
def Json.asStr (j : Json) (dflt : List Char) : List Char :=
  match j with
  | .str s => s
  | _ => dflt

/-- `d.get(key, dflt)` with a string default, projected to a string. -/
def Json.getStr (j : Json) (key : List Char) (dflt : List Char) : List Char :=
  match j.get? key with
  | some v => v.asStr dflt
  | none => dflt

/-- Python `int(v)` on a decoded JSON value: succeeds on ints, bools and
floats (truncating) and on digit strings; raises (`.error`) otherwise. -/
def pyIntOfJson : Json → Except Unit ℤ
  | .int n => .ok n
  | .bool b => .ok (if b then 1 else 0)
  | .float q => .ok (pyTrunc q)
  | .str s =>
    match s with
    | [] => .error ()
    | _ =>
      if s.all Char.isDigit then
        .ok ((s.foldl (fun acc c => 10 * acc + (c.toNat - 48)) 0 : Nat) : ℤ)
      else .error ()
  | _ => .error ()

/-- `int(d.get(key, dflt))` with an integer default. -/
def Json.getInt (j : Json) (key : List Char) (dflt : ℤ) : Except Unit ℤ :=
  match j.get? key with
  | some v => pyIntOfJson v
  | none => .ok dflt

/-- Iterating `for x in d.get(key, [])` over a decoded value: a list
iterates its elements; a missing key iterates nothing; an empty string
or empty dict also iterates nothing; any other value either raises at
the `for` (`TypeError`) or at the first element's `.get`
(`AttributeError`). -/
def Json.getItems (j : Json) (key : List Char) : Except Unit (List Json) :=
  match j.get? key with
  | none => .ok []
  | some (.arr xs) => .ok xs
  | some (.str []) => .ok []
  | some (.obj []) => .ok []
  | some _ => .error ()

/-! ## The JSON extraction shared by every `_parse_response`

Translated from the identical blocks in `pipeline/analyzer.py`,
`agents/depth_checker.py`, `agents/quality_reviewer.py`,
`agents/readability_checker.py` and `agents/improver.py`:

    response = response.strip()
    if '```json' in response:
        start = response.find('```json') + 7
        end = response.find('```', start)
        response = response[start:end].strip()
    elif '```' in response:
        start = response.find('```') + 3
        end = response.find('```', start)
        response = response[start:end].strip()
-/

def fenceJson : List Char := "```json".toList

def fencePlain : List Char := "```".toList

/-- The fence-stripping preprocessing applied to an LLM response before
`json.loads`. -/
def extractJson (response : List Char) : List Char :=
  let r := pyStrip response
  if pyContains r fenceJson then
    let start := pyFind r fenceJson 0 + 7
    let e := pyFind r fencePlain start.toNat
    pyStrip (pySlice r start e)
  else if pyContains r fencePlain then
    let start := pyFind r fencePlain 0 + 3
    let e := pyFind r fencePlain start.toNat
    pyStrip (pySlice r start e)
  else r

/-- Whether a response contains any code-fence marker after stripping. -/
def hasFence (response : List Char) : Bool :=
  pyContains (pyStrip response) fencePlain


/-! ## Data model (the `schemas` module, reconstructed from its uses)

The `schemas` module itself is not in the sources; every field below is
taken from how the pipeline files construct and read these records. -/

/-- Content-type tag (`ContentType`), five defined types plus `unknown`. -/
inductive ContentType where
  | technicalTutorial
  | sciencePopular
  | documentation
  | news
  | opinion
  | unknown
deriving DecidableEq

/-- Readability level tag (`ReadabilityLevel`); `normal` is the default
used when the decoded tag is not a known value. -/
inductive ReadabilityLevel where
  | easy
  | normal
  | hard
deriving DecidableEq

/-- `ContentSummary`: produced by the Content Analyzer. -/
structure ContentSummary where
  topic : List Char
  content_type : ContentType
  core_points : List (List Char)
  key_terms : List (List Char)
  fact_claims : List (List Char)
  search_queries : List (List Char)
deriving DecidableEq

/-- `SearchResult`: one deduplicated search hit. -/
structure SearchResult where
  query : List Char
  source_url : List Char
  title : List Char
  snippet : List Char
  relevance_score : ℚ
deriving DecidableEq

/-- A vague point reported by the Depth Checker. -/
structure VaguePoint where
  location : List Char
  issue : List Char
  question : List Char
  suggestion : List Char
deriving DecidableEq

/-- An issue reported by the Quality Reviewer or Readability Checker. -/
structure ContentIssue where
  issue_type : List Char
  severity : List Char
  location : List Char
  description : List Char
  suggestion : List Char
  reference : Option (List Char)
deriving DecidableEq

/-- `DepthCheckResult`. -/
structure DepthCheckResult where
  score : ℤ
  is_detailed_enough : Bool
  vague_points : List VaguePoint
  summary : List Char
deriving DecidableEq

/-- `QualityReviewResult`. -/
structure QualityReviewResult where
  score : ℤ
  approved : Bool
  issues : List ContentIssue
  summary : List Char
  logic_score : ℤ
  accuracy_score : ℤ
  completeness_score : ℤ
deriving DecidableEq

/-- `ReadabilityResult`. -/
structure ReadabilityResult where
  score : ℤ
  level : ReadabilityLevel
  issues : List ContentIssue
  summary : List Char
  vocabulary_score : ℤ
  syntax_score : ℤ
  discourse_score : ℤ
  surface_score : ℤ
deriving DecidableEq

/-- `ActionableFeedback`: one prioritized improvement suggestion. -/
structure ActionableFeedback where
  priority : ℤ
  location : List Char
  issue_type : List Char
  problem : List Char
  action : List Char
  reference : Option (List Char)
  estimated_effort : List Char
deriving DecidableEq

/-- `DimensionScores` as built by `ScoreAggregator.aggregate`. -/
structure DimensionScores where
  depth : ℤ
  accuracy : ℤ
  completeness : ℤ
  logic : ℤ
  clarity : ℤ
  usefulness : ℤ
  novelty : ℤ
  readability : ℤ
deriving DecidableEq

/-- The outcome of one `llm.chat(...)` call: either a raised exception
or a returned string (the empty string standing for any falsy return). -/
abbrev ChatOutcome := Except Unit (List Char)

/-- A JSON decoder: `none` models a raised `json.JSONDecodeError`. -/
abbrev JsonLoads := List Char → Option Json

/-! ## Content Analyzer (`pipeline/analyzer.py`) -/

/-- `ContentAnalyzer._default_summary(content)`: unknown type, empty
lists, and one search query joining the first 5 of the first 10
whitespace tokens of the first 500 characters (no query at all when
those characters hold no token). -/
def ContentAnalyzer.defaultSummary (content : List Char) : ContentSummary :=
  let words := (pySplit (pyTake content 500)).take 10
  let search_queries := if words ≠ [] then [pyJoinSpace (words.take 5)] else []
  { topic := []
    content_type := .unknown
    core_points := []
    key_terms := []
    fact_claims := []
    search_queries := search_queries }

/-- The string of a decoded `content_type` mapped to the enum; an
unrecognised string raises `ValueError`, caught and replaced by
`unknown` in the source. -/
def ContentType.ofString (s : List Char) : ContentType :=
  if s = "technical_tutorial".toList then .technicalTutorial
  else if s = "science_popular".toList then .sciencePopular
  else if s = "documentation".toList then .documentation
  else if s = "news".toList then .news
  else if s = "opinion".toList then .opinion
  else .unknown

/-- Iterating a decoded value as a list of strings (for `core_points`,
`key_terms`, ...): the source stores whatever the list holds; the
embedding keeps string elements and normalises the rest to `[]`. -/
def Json.getStrList (j : Json) (key : List Char) : List (List Char) :=
  match j.get? key with
  | some (.arr xs) => xs.map (fun x => x.asStr [])
  | _ => []

/-- `ContentAnalyzer._parse_response`: fence-strip, decode, build the
summary.  A `json.JSONDecodeError` is caught inside and yields
`_default_summary("")`; a `.get` on a decoded non-dict raises
`AttributeError`, which escapes to the caller (`.error`). -/
def ContentAnalyzer.parseResponse (jsonLoads : JsonLoads) (response : List Char) :
    Except Unit ContentSummary :=
  match jsonLoads (extractJson response) with
  | none => .ok (ContentAnalyzer.defaultSummary [])
  | some data =>
    if data.isObj then
      .ok { topic := data.getStr "topic".toList []
            content_type := ContentType.ofString
              (match data.get? "content_type".toList with
               | some v => v.asStr "unknown".toList
               | none => "unknown".toList)
            core_points := data.getStrList "core_points".toList
            key_terms := data.getStrList "key_terms".toList
            fact_claims := data.getStrList "fact_claims".toList
            search_queries := data.getStrList "search_queries".toList }
    else .error ()

/-- `ContentAnalyzer.analyze(content)`: one chat call; a raised
exception or falsy response yields `_default_summary(content)`; an
exception escaping `_parse_response` is caught by the same handler. -/
def ContentAnalyzer.analyze (jsonLoads : JsonLoads) (chat : ChatOutcome)
    (content : List Char) : ContentSummary :=
  match chat with
  | .error _ => ContentAnalyzer.defaultSummary content
  | .ok response =>
    if response = [] then ContentAnalyzer.defaultSummary content
    else
      match ContentAnalyzer.parseResponse jsonLoads response with
      | .ok s => s
      | .error _ => ContentAnalyzer.defaultSummary content

/-! ## Shared decoded-field helpers -/

/-- Python truthiness of a decoded JSON value. -/
def Json.truthy : Json → Bool
  | .null => false
  | .bool b => b
  | .int n => n ≠ 0
  | .float q => q ≠ 0
  | .str s => s ≠ []
  | .arr [] => false
  | .arr _ => true
  | .obj [] => false
  | .obj _ => true

/-- `d.get(key, dflt)` read as a boolean (the source stores the raw
value; the embedding normalises it by truthiness). -/
def Json.getBool (j : Json) (key : List Char) (dflt : Bool) : Bool :=
  match j.get? key with
  | some v => v.truthy
  | none => dflt

/-- `d.get(key)` read as an optional string (`None` when missing). -/
def Json.getOptStr (j : Json) (key : List Char) : Option (List Char) :=
  match j.get? key with
  | some (.str s) => some s
  | _ => none

/-- One decoded issue record, shared by the Quality Reviewer and the
Readability Checker (`issue.get(...)` with the source's defaults). -/
def ContentIssue.ofJson (issue : Json) : Except Unit ContentIssue :=
  if issue.isObj then
    .ok { issue_type := issue.getStr "issue_type".toList "unknown".toList
          severity := issue.getStr "severity".toList "medium".toList
          location := issue.getStr "location".toList []
          description := issue.getStr "description".toList []
          suggestion := issue.getStr "suggestion".toList []
          reference := issue.getOptStr "reference".toList }
  else .error ()

/-! ## Depth Checker (`agents/depth_checker.py`) -/

/-- `DepthChecker._default_result()`. -/
def DepthChecker.defaultResult : DepthCheckResult :=
  { score := 70
    is_detailed_enough := true
    vague_points := []
    summary := "深度检查完成".toList }

/-- `DepthChecker._parse_response`: decode failure is caught inside and
yields the default; any other raised error escapes (`.error`). -/
def DepthChecker.parseResponse (jsonLoads : JsonLoads) (response : List Char) :
    Except Unit DepthCheckResult :=
  match jsonLoads (extractJson response) with
  | none => .ok DepthChecker.defaultResult
  | some data =>
    if data.isObj then do
      let items ← data.getItems "vague_points".toList
      let vague_points ← items.mapM (fun vp =>
        if vp.isObj then
          Except.ok { location := vp.getStr "location".toList []
                      issue := vp.getStr "issue".toList []
                      question := vp.getStr "question".toList []
                      suggestion := vp.getStr "suggestion".toList []
                      : VaguePoint }
        else .error ())
      let score ← data.getInt "score".toList 70
      .ok { score := score
            is_detailed_enough := data.getBool "is_detailed_enough".toList true
            vague_points := vague_points
            summary := data.getStr "summary".toList [] }
    else .error ()

/-- `DepthChecker.check`: one chat call; raise, falsy response, or an
escaping parse error all yield the default result. -/
def DepthChecker.check (jsonLoads : JsonLoads) (chat : ChatOutcome) :
    DepthCheckResult :=
  match chat with
  | .error _ => DepthChecker.defaultResult
  | .ok response =>
    if response = [] then DepthChecker.defaultResult
    else
      match DepthChecker.parseResponse jsonLoads response with
      | .ok r => r
      | .error _ => DepthChecker.defaultResult

/-! ## Quality Reviewer (`agents/quality_reviewer.py`) -/

/-- `QualityReviewer._default_result()`. -/
def QualityReviewer.defaultResult : QualityReviewResult :=
  { score := 70
    approved := true
    issues := []
    summary := "质量审核完成".toList
    logic_score := 70
    accuracy_score := 70
    completeness_score := 70 }

/-- `QualityReviewer._parse_response`. -/
def QualityReviewer.parseResponse (jsonLoads : JsonLoads) (response : List Char) :
    Except Unit QualityReviewResult :=
  match jsonLoads (extractJson response) with
  | none => .ok QualityReviewer.defaultResult
  | some data =>
    if data.isObj then do
      let items ← data.getItems "issues".toList
      let issues ← items.mapM ContentIssue.ofJson
      let score ← data.getInt "score".toList 70
      let logic_score ← data.getInt "logic_score".toList 70
      let accuracy_score ← data.getInt "accuracy_score".toList 70
      let completeness_score ← data.getInt "completeness_score".toList 70
      .ok { score := score
            approved := data.getBool "approved".toList true
            issues := issues
            summary := data.getStr "summary".toList []
            logic_score := logic_score
            accuracy_score := accuracy_score
            completeness_score := completeness_score }
    else .error ()

/-- `QualityReviewer.review`. -/
def QualityReviewer.review (jsonLoads : JsonLoads) (chat : ChatOutcome) :
    QualityReviewResult :=
  match chat with
  | .error _ => QualityReviewer.defaultResult
  | .ok response =>
    if response = [] then QualityReviewer.defaultResult
    else
      match QualityReviewer.parseResponse jsonLoads response with
      | .ok r => r
      | .error _ => QualityReviewer.defaultResult

/-! ## Readability Checker (`agents/readability_checker.py`) -/

/-- `ReadabilityLevel(level_str)` with `ValueError ⇒ NORMAL`. -/
def ReadabilityLevel.ofString (s : List Char) : ReadabilityLevel :=
  if s = "easy".toList then .easy
  else if s = "normal".toList then .normal
  else if s = "hard".toList then .hard
  else .normal

/-- `ReadabilityChecker._default_result()`. -/
def ReadabilityChecker.defaultResult : ReadabilityResult :=
  { score := 70
    level := .normal
    issues := []
    summary := "可读性检测完成".toList
    vocabulary_score := 70
    syntax_score := 70
    discourse_score := 70
    surface_score := 70 }

/-- `ReadabilityChecker._parse_response`. -/
def ReadabilityChecker.parseResponse (jsonLoads : JsonLoads) (response : List Char) :
    Except Unit ReadabilityResult :=
  match jsonLoads (extractJson response) with
  | none => .ok ReadabilityChecker.defaultResult
  | some data =>
    if data.isObj then do
      let items ← data.getItems "issues".toList
      let issues ← items.mapM ContentIssue.ofJson
      let score ← data.getInt "score".toList 70
      let vocabulary_score ← data.getInt "vocabulary_score".toList 70
      let syntax_score ← data.getInt "syntax_score".toList 70
      let discourse_score ← data.getInt "discourse_score".toList 70
      let surface_score ← data.getInt "surface_score".toList 70
      .ok { score := score
            level := ReadabilityLevel.ofString
              (data.getStr "level".toList "normal".toList)
            issues := issues
            summary := data.getStr "summary".toList []
            vocabulary_score := vocabulary_score
            syntax_score := syntax_score
            discourse_score := discourse_score
            surface_score := surface_score }
    else .error ()

/-- `ReadabilityChecker.check`. -/
def ReadabilityChecker.check (jsonLoads : JsonLoads) (chat : ChatOutcome) :
    ReadabilityResult :=
  match chat with
  | .error _ => ReadabilityChecker.defaultResult
  | .ok response =>
    if response = [] then ReadabilityChecker.defaultResult
    else
      match ReadabilityChecker.parseResponse jsonLoads response with
      | .ok r => r
      | .error _ => ReadabilityChecker.defaultResult

/-! ## Improver (`agents/improver.py`) -/

/-- The comparator of `feedback_list.sort(key=lambda x: x.priority)`;
Python's sort is stable, as is `pySort`. -/
def feedbackLe (a b : ActionableFeedback) : Bool :=
  a.priority ≤ b.priority

/-- `Improver._parse_response`: decode failure is caught inside and
yields the *empty list*; other raised errors escape (`.error`). -/
def Improver.parseResponse (jsonLoads : JsonLoads) (response : List Char) :
    Except Unit (List ActionableFeedback) :=
  match jsonLoads (extractJson response) with
  | none => .ok []
  | some data =>
    if data.isObj then do
      let items ← data.getItems "feedback".toList
      let feedback ← items.mapM (fun fb =>
        if fb.isObj then do
          let priority ← fb.getInt "priority".toList 3
          Except.ok { priority := priority
                      location := fb.getStr "location".toList []
                      issue_type := fb.getStr "issue_type".toList "unknown".toList
                      problem := fb.getStr "problem".toList []
                      action := fb.getStr "action".toList []
                      reference := fb.getOptStr "reference".toList
                      estimated_effort :=
                        fb.getStr "estimated_effort".toList "medium".toList
                      : ActionableFeedback }
        else .error ())
      .ok (pySort feedbackLe feedback)
    else .error ()

/-- `Improver._generate_from_results`, the deterministic fallback: one
item per depth vague point, per quality issue and per readability
issue, then a stable ascending sort by priority. -/
def Improver.generateFromResults (depth : DepthCheckResult)
    (quality : QualityReviewResult) (readability : ReadabilityResult) :
    List ActionableFeedback :=
  let depthItems := depth.vague_points.map (fun vp =>
    { priority := 3
      location := vp.location
      issue_type := "missing_detail".toList
      problem := vp.issue
      action := vp.suggestion
      reference := none
      estimated_effort := "medium".toList : ActionableFeedback })
  let qualityItems := quality.issues.map (fun issue =>
    { priority := if issue.severity = "high".toList then 1
                  else if issue.severity = "medium".toList then 2 else 4
      location := issue.location
      issue_type := issue.issue_type
      problem := issue.description
      action := issue.suggestion
      reference := issue.reference
      estimated_effort :=
        if issue.severity ≠ "low".toList then "medium".toList
        else "low".toList : ActionableFeedback })
  let readabilityItems := readability.issues.map (fun issue =>
    { priority := if issue.severity = "high".toList then 2
                  else if issue.severity = "medium".toList then 3 else 4
      location := issue.location
      issue_type := issue.issue_type
      problem := issue.description
      action := issue.suggestion
      reference := none
      estimated_effort := "low".toList : ActionableFeedback })
  pySort feedbackLe (depthItems ++ qualityItems ++ readabilityItems)

/-- `Improver.generate`: a raised chat call or a falsy response fall
back to `_generate_from_results`; so does an error escaping
`_parse_response` — but a `json.JSONDecodeError` inside it does not. -/
def Improver.generate (jsonLoads : JsonLoads) (chat : ChatOutcome)
    (depth : DepthCheckResult) (quality : QualityReviewResult)
    (readability : ReadabilityResult) : List ActionableFeedback :=
  match chat with
  | .error _ => Improver.generateFromResults depth quality readability
  | .ok response =>
    if response = [] then Improver.generateFromResults depth quality readability
    else
      match Improver.parseResponse jsonLoads response with
      | .ok l => l
      | .error _ => Improver.generateFromResults depth quality readability

/-! ## Search Agent (`pipeline/search_agent.py`) -/

/-- A raw item of the external search capability's response. -/
structure RawSearchItem where
  url : Option (List Char)
  title : Option (List Char)
  content : Option (List Char)
  snippet : Option (List Char)

/-- The shapes a search-service call can produce: the vibe-blog dict
shape, a bare list, any other value, or a raised exception. -/
inductive SvcResponse where
  | dict (success : Bool) (results : List RawSearchItem)
  | list (results : List RawSearchItem)
  | otherVal
  | raise

/-- The external search capability, or `none` when unavailable. -/
abbrev SearchService := Option (List Char → Nat → SvcResponse)

/-- Converting one raw item (`SearchResult(query=..., url=..., ...)`). -/
def RawSearchItem.convert (query : List Char) (item : RawSearchItem) :
    SearchResult :=
  { query := query
    source_url := item.url.getD []
    title := item.title.getD []
    snippet := item.content.getD (item.snippet.getD [])
    relevance_score := 0 }

/-- `SearchAgent._execute_search`: unwrap the response envelope; every
failure shape degrades to `[]`. -/
def SearchAgent.executeSearch (svc : List Char → Nat → SvcResponse)
    (query : List Char) (maxResults : Nat) : List SearchResult :=
  match svc query maxResults with
  | .dict false _ => []
  | .dict true rs => rs.map (RawSearchItem.convert query)
  | .list rs => rs.map (RawSearchItem.convert query)
  | .otherVal => []
  | .raise => []

/-- The deduplication loop of `SearchAgent.search`: append each result
whose `source_url` was not seen before. -/
def SearchAgent.dedupLoop (rs : List SearchResult)
    (seen : List (List Char)) (acc : List SearchResult) :
    List (List Char) × List SearchResult :=
  match rs with
  | [] => (seen, acc)
  | r :: rest =>
    if r.source_url ∈ seen then SearchAgent.dedupLoop rest seen acc
    else SearchAgent.dedupLoop rest (r.source_url :: seen) (acc ++ [r])

/-- The per-query loop of `SearchAgent.search` (the `seen_urls` set and
`all_results` list persist across queries). -/
def SearchAgent.searchLoop (svc : List Char → Nat → SvcResponse)
    (queries : List (List Char)) (maxResultsPerQuery : Nat)
    (seen : List (List Char)) (acc : List SearchResult) : List SearchResult :=
  match queries with
  | [] => acc
  | q :: rest =>
    let (seen', acc') :=
      SearchAgent.dedupLoop (SearchAgent.executeSearch svc q maxResultsPerQuery)
        seen acc
    SearchAgent.searchLoop svc rest maxResultsPerQuery seen' acc'

/-- `SearchAgent.search(queries, max_results_per_query)`. -/
def SearchAgent.search (service : SearchService)
    (queries : List (List Char)) (maxResultsPerQuery : Nat) :
    List SearchResult :=
  match service with
  | none => []
  | some svc => SearchAgent.searchLoop svc queries maxResultsPerQuery [] []

/-- `SearchAgent.search_multi_round(summary, max_rounds,
results_per_round)`: round 1 over up to 3 generated queries, round 2
over up to 2 `"{topic} {term}"` queries; the two rounds are separate
`search` calls whose results are concatenated. -/
def SearchAgent.searchMultiRound (service : SearchService)
    (summary : ContentSummary) (maxRounds : Nat) (resultsPerRound : Nat) :
    List SearchResult :=
  let round1 :=
    if summary.search_queries ≠ [] then
      SearchAgent.search service (summary.search_queries.take 3)
        (resultsPerRound / 3 + 1)
    else []
  let round2 :=
    if 2 ≤ maxRounds ∧ summary.key_terms ≠ [] then
      SearchAgent.search service
        ((summary.key_terms.take 2).map
          (fun term => summary.topic ++ [' '] ++ term)) 2
    else []
  round1 ++ round2

/-! ## Reference Manager (`pipeline/reference_manager.py`) -/

/-- The number of distinct words of `point` that also occur as words of
`text` (`len(point_words & text_words)` on Python sets). -/
def sharedWordCount (point text : List Char) : Nat :=
  ((pySplit (pyLower point)).dedup.filter
    (fun w => w ∈ pySplit text)).length

/-- `ReferenceManager._calculate_relevance(result, summary)`. -/
def ReferenceManager.calculateRelevance (result : SearchResult)
    (summary : ContentSummary) : ℚ :=
  let text := pyLower (result.title ++ [' '] ++ result.snippet)
  let topicScore : ℚ :=
    if summary.topic ≠ [] ∧ pyContains text (pyLower summary.topic) then
      (3 : ℚ) / 10
    else 0
  let matchedTerms : Nat :=
    (summary.key_terms.filter (fun term => pyContains text (pyLower term))).length
  let termScore : ℚ :=
    if summary.key_terms ≠ [] then
      (4 : ℚ) / 10 * ((matchedTerms : ℚ) / (summary.key_terms.length : ℚ))
    else 0
  let matchedPoints : Nat :=
    (summary.core_points.filter
      (fun point => 2 ≤ sharedWordCount point text)).length
  let pointScore : ℚ :=
    if summary.core_points ≠ [] then
      (3 : ℚ) / 10 * ((matchedPoints : ℚ) / (summary.core_points.length : ℚ))
    else 0
  min (topicScore + termScore + pointScore) 1

/-- `ReferenceManager.evaluate_relevance`: populate every score, then
sort descending by score (`list.sort(reverse=True)`, stable). -/
def ReferenceManager.evaluateRelevance (results : List SearchResult)
    (summary : ContentSummary) : List SearchResult :=
  match results with
  | [] => []
  | _ =>
    (results.map (fun r =>
      { r with relevance_score := ReferenceManager.calculateRelevance r summary }))
      |> pySort (fun a b => b.relevance_score ≤ a.relevance_score)

/-- `ReferenceManager.filter_by_relevance`. -/
def ReferenceManager.filterByRelevance (results : List SearchResult)
    (minScore : ℚ) : List SearchResult :=
  results.filter (fun r => minScore ≤ r.relevance_score)

/-! ## Score Aggregator (`pipeline/score_aggregator.py`) -/

/-- The five weight keys. -/
inductive WeightKey where
  | depth
  | accuracy
  | completeness
  | logic
  | readability
deriving DecidableEq

/-- `WEIGHT_CONFIGS`: the per-content-type weight table. -/
def WEIGHT_CONFIGS (ct : ContentType) (k : WeightKey) : ℚ :=
  match ct, k with
  | .technicalTutorial, .depth => 25/100
  | .technicalTutorial, .accuracy => 25/100
  | .technicalTutorial, .completeness => 15/100
  | .technicalTutorial, .logic => 15/100
  | .technicalTutorial, .readability => 20/100
  | .sciencePopular, .depth => 15/100
  | .sciencePopular, .accuracy => 20/100
  | .sciencePopular, .completeness => 15/100
  | .sciencePopular, .logic => 15/100
  | .sciencePopular, .readability => 35/100
  | .documentation, .depth => 20/100
  | .documentation, .accuracy => 30/100
  | .documentation, .completeness => 25/100
  | .documentation, .logic => 15/100
  | .documentation, .readability => 10/100
  | .news, .depth => 10/100
  | .news, .accuracy => 35/100
  | .news, .completeness => 20/100
  | .news, .logic => 15/100
  | .news, .readability => 20/100
  | .opinion, .depth => 20/100
  | .opinion, .accuracy => 15/100
  | .opinion, .completeness => 15/100
  | .opinion, .logic => 30/100
  | .opinion, .readability => 20/100
  | .unknown, .depth => 20/100
  | .unknown, .accuracy => 20/100
  | .unknown, .completeness => 20/100
  | .unknown, .logic => 20/100
  | .unknown, .readability => 20/100

/-- The canonical dict key of a weight key. -/
def WeightKey.name : WeightKey → List Char
  | .depth => "depth".toList
  | .accuracy => "accuracy".toList
  | .completeness => "completeness".toList
  | .logic => "logic".toList
  | .readability => "readability".toList

/-- A custom-weights dict, as a key-value list. -/
abbrev CustomWeights := List (List Char × ℚ)

/-- `weights.get(name, 0.2)` on a weights dict. -/
def weightsGetD (w : CustomWeights) (k : WeightKey) : ℚ :=
  match w.find? (fun kv => kv.1 = k.name) with
  | some kv => kv.2
  | none => 2/10

/-- The effective weight function chosen by
`self.custom_weights or WEIGHT_CONFIGS.get(content_type, ...)`:
a missing or empty (falsy) custom dict falls back to the table. -/
def ScoreAggregator.effectiveWeight (custom : Option CustomWeights)
    (ct : ContentType) (k : WeightKey) : ℚ :=
  match custom with
  | none => WEIGHT_CONFIGS ct k
  | some [] => WEIGHT_CONFIGS ct k
  | some w => weightsGetD w k

/-- `ScoreAggregator.aggregate`: the weighted sum of the five dimension
scores, truncated to an integer, plus the dimension breakdown. -/
def ScoreAggregator.aggregate (custom : Option CustomWeights)
    (depth : DepthCheckResult) (quality : QualityReviewResult)
    (readability : ReadabilityResult)
    (ct : ContentType := .unknown) : ℤ × DimensionScores :=
  let w := ScoreAggregator.effectiveWeight custom ct
  let dims : DimensionScores :=
    { depth := depth.score
      accuracy := quality.accuracy_score
      completeness := quality.completeness_score
      logic := quality.logic_score
      clarity := readability.vocabulary_score
      usefulness := 0
      novelty := 0
      readability := readability.score }
  let overall : ℚ :=
    w .depth * (depth.score : ℚ) +
    w .accuracy * (quality.accuracy_score : ℚ) +
    w .completeness * (quality.completeness_score : ℚ) +
    w .logic * (quality.logic_score : ℚ) +
    w .readability * (readability.score : ℚ)
  (pyTrunc overall, dims)

/-- `ScoreAggregator.get_grade`. -/
def ScoreAggregator.getGrade (score : ℤ) : List Char :=
  if 90 ≤ score then "A".toList
  else if 80 ≤ score then "B".toList
  else if 70 ≤ score then "C".toList
  else if 60 ≤ score then "D".toList
  else "F".toList

/-! ## Chapter store (`models/reviewer_models.py`) and the
incremental-skip rule of the orchestrator -/

/-- One persisted `reviewer_chapters` row, restricted to the fields the
pipeline depends on. -/
structure ChapterRow where
  id : ℤ
  tutorial_id : ℤ
  content_hash : List Char
  overall_score : ℤ
  depth_score : ℤ
  quality_score : ℤ
  readability_score : ℤ
  status : List Char
deriving DecidableEq

/-- `ChapterModel.get_by_hash(tutorial_id, content_hash)`: the first
row of the store matching both keys, if any. -/
def ChapterModel.get_by_hash (rows : List ChapterRow) (tutorialId : ℤ)
    (contentHash : List Char) : Option ChapterRow :=
  rows.find? (fun r => r.tutorial_id = tutorialId ∧ r.content_hash = contentHash)

/-- What evaluating one chapter costs and produces: the scores written
back plus the number of generation-capability calls and of
search-capability calls it made. -/
structure EvalOutcome where
  row : ChapterRow
  genCalls : Nat
  searchCalls : Nat
deriving DecidableEq

/-- Modelled from the spec: the Pipeline Orchestrator itself is not
among the sources (`routes.py` only calls its
`evaluate_tutorial_sync`); per spec §4.7 it computes the fingerprint of
the chapter's current text, looks the fingerprint up in the prior run's
rows (the source anchor is `ChapterModel.get_by_hash`), and skips the
chapter entirely when a row is found — prior scores retained, zero
generation and search calls — and otherwise runs the evaluation
stages. -/
def Orchestrator.processChapter (fingerprint : List Char → List Char)
    (evaluate : List Char → EvalOutcome) (rows : List ChapterRow)
    (tutorialId : ℤ) (text : List Char) : EvalOutcome :=
  match ChapterModel.get_by_hash rows tutorialId (fingerprint text) with
  | some row => { row := row, genCalls := 0, searchCalls := 0 }
  | none => evaluate text

/-! ## Specification-side functions used to characterise the code -/

/-- Keep the first occurrence of every `source_url`, dropping later
ones (the deduplication the spec describes, written independently of
the seen-set loop of the source). -/
def dedupByUrlFirst : List SearchResult → List SearchResult
  | [] => []
  | r :: rest =>
    r :: dedupByUrlFirst (rest.filter (fun x => x.source_url ≠ r.source_url))
termination_by l => l.length
decreasing_by
  exact Nat.lt_succ_of_le (List.length_filter_le _ _)

/-- The seen-set after the dedup loop has processed `rs`. -/
def updateSeen (seen : List (List Char)) : List SearchResult → List (List Char)
  | [] => seen
  | r :: rest =>
    if r.source_url ∈ seen then updateSeen seen rest
    else updateSeen (r.source_url :: seen) rest

/-- First-occurrence dedup of `rs` relative to an initial seen-set. -/
def dedupFrom (seen : List (List Char)) : List SearchResult → List SearchResult
  | [] => []
  | r :: rest =>
    if r.source_url ∈ seen then dedupFrom seen rest
    else r :: dedupFrom (r.source_url :: seen) rest

def braceOpen : Char := Char.ofNat 123

def braceClose : Char := Char.ofNat 125

/-- Python `s.rfind(pat)`: the greatest index at which `pat` occurs,
or `-1`. -/
def pyRFind (l pat : List Char) : Int :=
  match ((List.range (l.length + 1)).filter
      (fun j => List.isPrefixOf pat (l.drop j))).getLast? with
  | some j => (j : Int)
  | none => -1

/-- Modelled from the spec: the bracket-scanning fallback §4.1 asks for
("first '\x7b' … last '\x7d'") — take the slice from the first opening
brace to the last closing brace.  Present only as the comparison point
for the extraction the source actually performs. -/
def bracketScan (s : List Char) : List Char :=
  let i := pyFind s [braceOpen] 0
  let j := pyRFind s [braceClose]
  if 0 ≤ i ∧ 0 ≤ j then pySlice s i (j + 1) else s

/-! ## Helper lemmas: the stable sort -/

theorem insortBy_perm (le : α → α → Bool) (a : α) :
    ∀ l : List α, List.Perm (insortBy le a l) (a :: l)
  | [] => List.Perm.refl _
  | b :: rest => by
    simp only [insortBy]
    split
    · exact List.Perm.refl _
    · exact ((insortBy_perm le a rest).cons b).trans (List.Perm.swap a b rest)

theorem pySort_perm (le : α → α → Bool) :
    ∀ l : List α, List.Perm (pySort le l) l
  | [] => List.Perm.refl _
  | a :: rest => by
    simp only [pySort]
    exact (insortBy_perm le a (pySort le rest)).trans ((pySort_perm le rest).cons a)

theorem insortBy_pairwise (le : α → α → Bool)
    (htrans : ∀ x y z, le x y = true → le y z = true → le x z = true)
    (htot : ∀ x y, le x y = true ∨ le y x = true) (a : α) :
    ∀ l : List α, l.Pairwise (fun x y => le x y = true) →
      (insortBy le a l).Pairwise (fun x y => le x y = true)
  | [], _ => List.pairwise_singleton _ a
  | b :: rest, h => by
    rw [List.pairwise_cons] at h
    obtain ⟨hb, hrest⟩ := h
    simp only [insortBy]
    split
    · rename_i hab
      rw [List.pairwise_cons]
      refine ⟨?_, List.pairwise_cons.mpr ⟨hb, hrest⟩⟩
      intro y hy
      rcases List.mem_cons.mp hy with rfl | hy
      · exact hab
      · exact htrans a b y hab (hb y hy)
    · rename_i hab
      rw [List.pairwise_cons]
      refine ⟨?_, insortBy_pairwise le htrans htot a rest hrest⟩
      intro y hy
      rcases List.mem_cons.mp ((insortBy_perm le a rest).mem_iff.mp hy) with rfl | hy
      · rcases htot y b with hyb | hby
        · exact absurd hyb hab
        · exact hby
      · exact hb y hy

theorem pySort_pairwise (le : α → α → Bool)
    (htrans : ∀ x y z, le x y = true → le y z = true → le x z = true)
    (htot : ∀ x y, le x y = true ∨ le y x = true) :
    ∀ l : List α, (pySort le l).Pairwise (fun x y => le x y = true)
  | [] => List.Pairwise.nil
  | a :: rest => by
    simp only [pySort]
    exact insortBy_pairwise le htrans htot a (pySort le rest)
      (pySort_pairwise le htrans htot rest)

theorem insortBy_filter (le : α → α → Bool) (p : α → Bool)
    (hcl : ∀ x y, p x = true → p y = true → le x y = true) (a : α) :
    ∀ l : List α, (insortBy le a l).filter p =
      if p a then a :: l.filter p else l.filter p
  | [] => by
    simp only [insortBy]
    by_cases hpa : p a = true <;> simp [List.filter_cons, hpa]
  | b :: rest => by
    simp only [insortBy]
    split
    · by_cases hpa : p a = true <;> simp [List.filter_cons, hpa]
    · rename_i hab
      rw [List.filter_cons, insortBy_filter le p hcl a rest]
      by_cases hpa : p a = true
      · have hpb : p b = false := by
          cases hpb : p b
          · rfl
          · exact absurd (hcl a b hpa hpb) hab
        simp [hpa, hpb, List.filter_cons]
      · simp [hpa, List.filter_cons]

theorem pySort_filter (le : α → α → Bool) (p : α → Bool)
    (hcl : ∀ x y, p x = true → p y = true → le x y = true) :
    ∀ l : List α, (pySort le l).filter p = l.filter p
  | [] => rfl
  | a :: rest => by
    simp only [pySort]
    rw [insortBy_filter le p hcl a (pySort le rest),
      pySort_filter le p hcl rest, List.filter_cons]

/-! ## Helper lemmas: the search dedup loop -/

theorem dedupLoop_eq :
    ∀ (rs : List SearchResult) (seen : List (List Char))
      (acc : List SearchResult),
      SearchAgent.dedupLoop rs seen acc =
        (updateSeen seen rs, acc ++ dedupFrom seen rs)
  | [], seen, acc => by simp [SearchAgent.dedupLoop, updateSeen, dedupFrom]
  | r :: rest, seen, acc => by
    simp only [SearchAgent.dedupLoop, updateSeen, dedupFrom]
    by_cases h : r.source_url ∈ seen
    · simp only [if_pos h]
      exact dedupLoop_eq rest seen acc
    · simp only [if_neg h]
      rw [dedupLoop_eq rest (r.source_url :: seen) (acc ++ [r])]
      simp

theorem dedupFrom_append :
    ∀ (xs : List SearchResult) (seen : List (List Char))
      (ys : List SearchResult),
      dedupFrom seen (xs ++ ys) =
        dedupFrom seen xs ++ dedupFrom (updateSeen seen xs) ys
  | [], seen, ys => by simp [dedupFrom, updateSeen]
  | r :: rest, seen, ys => by
    simp only [List.cons_append, dedupFrom, updateSeen, List.append_eq]
    by_cases h : r.source_url ∈ seen
    · simp only [if_pos h]
      exact dedupFrom_append rest seen ys
    · simp only [if_neg h]
      rw [dedupFrom_append rest (r.source_url :: seen) ys]
      simp

theorem searchLoop_eq (svc : List Char → Nat → SvcResponse) (k : Nat) :
    ∀ (queries : List (List Char)) (seen : List (List Char))
      (acc : List SearchResult),
      SearchAgent.searchLoop svc queries k seen acc =
        acc ++ dedupFrom seen
          (queries.flatMap (fun q => SearchAgent.executeSearch svc q k))
  | [], seen, acc => by simp [SearchAgent.searchLoop, dedupFrom]
  | q :: rest, seen, acc => by
    simp only [SearchAgent.searchLoop, dedupLoop_eq]
    rw [searchLoop_eq svc k rest]
    rw [List.flatMap_cons, dedupFrom_append]
    simp

theorem dedupFrom_eq_dedupByUrlFirst :
    ∀ (l : List SearchResult) (seen : List (List Char)),
      dedupFrom seen l =
        dedupByUrlFirst (l.filter (fun r => r.source_url ∉ seen))
  | [], _ => by
    rw [List.filter_nil, dedupByUrlFirst.eq_def]
    rfl
  | r :: rest, seen => by
    simp only [dedupFrom, List.filter_cons]
    by_cases h : r.source_url ∈ seen
    · have hp : decide (r.source_url ∉ seen) = false := by simp [h]
      rw [if_pos h, hp]
      simp only [Bool.false_eq_true, if_false]
      exact dedupFrom_eq_dedupByUrlFirst rest seen
    · have hp : decide (r.source_url ∉ seen) = true := by simp [h]
      rw [if_neg h, hp]
      simp only [if_true]
      rw [dedupByUrlFirst.eq_def]
      simp only []
      rw [dedupFrom_eq_dedupByUrlFirst rest (r.source_url :: seen)]
      congr 1
      rw [List.filter_filter]
      congr 1
      apply List.filter_congr
      intro x _
      simp [List.mem_cons, not_or, Bool.and_comm]

theorem dedupFrom_nodup_urls :
    ∀ (l : List SearchResult) (seen : List (List Char)),
      ((dedupFrom seen l).map (fun r => r.source_url)).Nodup ∧
      ∀ u ∈ (dedupFrom seen l).map (fun r => r.source_url), u ∉ seen
  | [], _ => by simp [dedupFrom]
  | r :: rest, seen => by
    simp only [dedupFrom]
    by_cases h : r.source_url ∈ seen
    · simp only [if_pos h]
      exact dedupFrom_nodup_urls rest seen
    · simp only [if_neg h]
      obtain ⟨hnd, hns⟩ := dedupFrom_nodup_urls rest (r.source_url :: seen)
      constructor
      · rw [List.map_cons, List.nodup_cons]
        refine ⟨?_, hnd⟩
        intro hmem
        obtain ⟨x, hx, hxe⟩ := List.mem_map.mp hmem
        exact hns x.source_url (List.mem_map.mpr ⟨x, hx, rfl⟩)
          (by rw [hxe]; exact List.mem_cons_self _ _)
      · intro u hu
        rw [List.map_cons] at hu
        rcases List.mem_cons.mp hu with rfl | hu'
        · exact h
        · intro hmem
          exact hns u hu' (List.mem_cons_of_mem _ hmem)

/-! ## Claim C1 -/

/-- C1: for every chapter whose current content fingerprint equals a
fingerprint stored for that chapter in the prior run's rows, the
orchestrator (spec-modelled, anchored on `ChapterModel.get_by_hash`)
skips the chapter entirely: the returned record is the stored row,
bit-identical, and zero generation-capability and search-capability
calls are made for it. -/
theorem incremental_skip (fingerprint : List Char → List Char)
    (evaluate : List Char → EvalOutcome) (rows : List ChapterRow)
    (tid : ℤ) (text : List Char) (row : ChapterRow)
    (h : ChapterModel.get_by_hash rows tid (fingerprint text) = some row) :
    Orchestrator.processChapter fingerprint evaluate rows tid text =
      { row := row, genCalls := 0, searchCalls := 0 } := by
  unfold Orchestrator.processChapter
  rw [h]

/-- C1 witness: a concrete prior row with a matching fingerprint is
returned unchanged with zero calls, although evaluation would have
changed it and cost calls. -/
theorem incremental_skip_witness :
    Orchestrator.processChapter (fun t => t)
      (fun _ => { row := { id := 2, tutorial_id := 7, content_hash := "x".toList,
                           overall_score := 1, depth_score := 1, quality_score := 1,
                           readability_score := 1, status := "evaluating".toList },
                  genCalls := 9, searchCalls := 4 })
      [{ id := 1, tutorial_id := 7, content_hash := "h1".toList,
         overall_score := 88, depth_score := 80, quality_score := 85,
         readability_score := 90, status := "completed".toList }]
      7 "h1".toList =
      { row := { id := 1, tutorial_id := 7, content_hash := "h1".toList,
                 overall_score := 88, depth_score := 80, quality_score := 85,
                 readability_score := 90, status := "completed".toList },
        genCalls := 0, searchCalls := 0 } :=
  incremental_skip _ _ _ _ _ _ (by decide)

/-! ## Claim C4 -/

/-- C4: for each of the three evaluators, a raised generation call, an
empty response, or an unparseable response payload yields the fixed
default result: overall score 70, empty issue list (empty vague-point
list for Depth), and all sub-scores (logic/accuracy/completeness for
Quality, vocabulary/syntax/discourse/surface for Readability) equal to
70. -/
theorem evaluator_default_on_failure (jsonLoads : JsonLoads) (chat : ChatOutcome)
    (h : chat = .error () ∨
      ∃ r, chat = .ok r ∧ (r = [] ∨ jsonLoads (extractJson r) = none)) :
    (DepthChecker.check jsonLoads chat = DepthChecker.defaultResult ∧
     QualityReviewer.review jsonLoads chat = QualityReviewer.defaultResult ∧
     ReadabilityChecker.check jsonLoads chat = ReadabilityChecker.defaultResult) ∧
    (DepthChecker.defaultResult.score = 70 ∧
     DepthChecker.defaultResult.vague_points = [] ∧
     QualityReviewer.defaultResult.score = 70 ∧
     QualityReviewer.defaultResult.issues = [] ∧
     QualityReviewer.defaultResult.logic_score = 70 ∧
     QualityReviewer.defaultResult.accuracy_score = 70 ∧
     QualityReviewer.defaultResult.completeness_score = 70 ∧
     ReadabilityChecker.defaultResult.score = 70 ∧
     ReadabilityChecker.defaultResult.issues = [] ∧
     ReadabilityChecker.defaultResult.vocabulary_score = 70 ∧
     ReadabilityChecker.defaultResult.syntax_score = 70 ∧
     ReadabilityChecker.defaultResult.discourse_score = 70 ∧
     ReadabilityChecker.defaultResult.surface_score = 70) := by
  constructor
  · rcases h with rfl | ⟨r, rfl, hr⟩
    · exact ⟨rfl, rfl, rfl⟩
    · rcases hr with rfl | hr
      · exact ⟨rfl, rfl, rfl⟩
      · by_cases hre : r = []
        · subst hre; exact ⟨rfl, rfl, rfl⟩
        · refine ⟨?_, ?_, ?_⟩
          · simp [DepthChecker.check, hre, DepthChecker.parseResponse, hr]
          · simp [QualityReviewer.review, hre, QualityReviewer.parseResponse, hr]
          · simp [ReadabilityChecker.check, hre, ReadabilityChecker.parseResponse, hr]
  · exact ⟨rfl, rfl, rfl, rfl, rfl, rfl, rfl, rfl, rfl, rfl, rfl, rfl, rfl⟩

/-- C4 witness: at a concrete always-failing decoder and a concrete
non-empty response, all three evaluators return their defaults. -/
theorem evaluator_default_on_failure_witness :
    DepthChecker.check (fun _ => none) (Except.ok "oops".toList) =
        DepthChecker.defaultResult ∧
    QualityReviewer.review (fun _ => none) (Except.ok "oops".toList) =
        QualityReviewer.defaultResult ∧
    ReadabilityChecker.check (fun _ => none) (Except.ok "oops".toList) =
        ReadabilityChecker.defaultResult :=
  (evaluator_default_on_failure (fun _ => none) (Except.ok "oops".toList)
    (Or.inr ⟨"oops".toList, rfl, Or.inr rfl⟩)).1

/-! ## Claim C8 -/

/-- C8: for every search result and content summary, the relevance
score computed by `ReferenceManager._calculate_relevance` lies in
`[0, 1]`. -/
theorem relevance_score_in_unit_interval (r : SearchResult) (s : ContentSummary) :
    0 ≤ ReferenceManager.calculateRelevance r s ∧
      ReferenceManager.calculateRelevance r s ≤ 1 := by
  simp only [ReferenceManager.calculateRelevance]
  constructor
  · refine le_min ?_ zero_le_one
    refine add_nonneg (add_nonneg ?_ ?_) ?_ <;> (split_ifs <;> positivity)
  · exact min_le_right _ _

/-! ## Claim C9 -/

/-- C9: for every one of the six content types in `WEIGHT_CONFIGS`
(five defined types plus the unknown default), the five weights for
depth, accuracy, completeness, logic and readability sum to 1.0 within
1e-6. -/
theorem weight_table_rows_sum_to_one (ct : ContentType) :
    |WEIGHT_CONFIGS ct .depth + WEIGHT_CONFIGS ct .accuracy +
      WEIGHT_CONFIGS ct .completeness + WEIGHT_CONFIGS ct .logic +
      WEIGHT_CONFIGS ct .readability - 1| ≤ 1 / 1000000 := by
  cases ct <;> norm_num [WEIGHT_CONFIGS]

/-! ## Claim C10 -/

/-- C10: a non-empty custom-weights mapping replaces the content-type
table for every content type (the result does not depend on the
content type); each of the five dimension keys missing from the
mapping contributes with default weight 0.2; an empty custom mapping
is ignored in favour of the content-type table. -/
theorem aggregate_custom_weights (w : CustomWeights) (hw : w ≠ [])
    (d : DepthCheckResult) (q : QualityReviewResult) (r : ReadabilityResult)
    (ct ct' : ContentType) :
    ScoreAggregator.aggregate (some w) d q r ct =
        ScoreAggregator.aggregate (some w) d q r ct' ∧
    (ScoreAggregator.aggregate (some w) d q r ct).1 =
      pyTrunc (weightsGetD w .depth * (d.score : ℚ) +
        weightsGetD w .accuracy * (q.accuracy_score : ℚ) +
        weightsGetD w .completeness * (q.completeness_score : ℚ) +
        weightsGetD w .logic * (q.logic_score : ℚ) +
        weightsGetD w .readability * (r.score : ℚ)) ∧
    (∀ k : WeightKey, w.find? (fun kv => kv.1 = k.name) = none →
        weightsGetD w k = 2 / 10) ∧
    ScoreAggregator.aggregate (some []) d q r ct =
        ScoreAggregator.aggregate none d q r ct := by
  obtain ⟨kv, w', rfl⟩ : ∃ kv w', w = kv :: w' := by
    cases w with
    | nil => exact absurd rfl hw
    | cons kv w' => exact ⟨kv, w', rfl⟩
  refine ⟨rfl, rfl, ?_, rfl⟩
  intro k hk
  unfold weightsGetD
  rw [hk]

/-- C10 witness: a concrete one-key custom mapping gives the same
aggregate for two different content types. -/
theorem aggregate_custom_weights_witness :
    ([("depth".toList, (1 : ℚ)/2)] : CustomWeights) ≠ [] ∧
    ScoreAggregator.aggregate (some [("depth".toList, (1 : ℚ)/2)])
        DepthChecker.defaultResult QualityReviewer.defaultResult
        ReadabilityChecker.defaultResult .news =
      ScoreAggregator.aggregate (some [("depth".toList, (1 : ℚ)/2)])
        DepthChecker.defaultResult QualityReviewer.defaultResult
        ReadabilityChecker.defaultResult .opinion :=
  ⟨by simp, (aggregate_custom_weights _ (by simp) DepthChecker.defaultResult
    QualityReviewer.defaultResult ReadabilityChecker.defaultResult
    .news .opinion).1⟩

/-! ## Claim C5 -/

theorem feedbackLe_trans (x y z : ActionableFeedback)
    (hxy : feedbackLe x y = true) (hyz : feedbackLe y z = true) :
    feedbackLe x z = true := by
  simp only [feedbackLe, decide_eq_true_eq] at *
  omega

theorem feedbackLe_total (x y : ActionableFeedback) :
    feedbackLe x y = true ∨ feedbackLe y x = true := by
  simp only [feedbackLe, decide_eq_true_eq]
  omega

/-- C5: the Improver's deterministic fallback produces one feedback
item per depth vague point (priority 3, issue type `missing_detail`),
one per quality issue (priority 1 if severity high, 2 if medium, else
4), one per readability issue (priority 2 if high, 3 if medium, else
4), and the returned list is sorted non-decreasingly by priority,
stably with respect to the generation order (items of equal priority
keep that order). -/
theorem improver_fallback_items_and_order (d : DepthCheckResult)
    (q : QualityReviewResult) (r : ReadabilityResult) :
    List.Pairwise (fun a b : ActionableFeedback => a.priority ≤ b.priority)
      (Improver.generateFromResults d q r) ∧
    List.Perm (Improver.generateFromResults d q r)
      (d.vague_points.map (fun vp =>
        { priority := 3
          location := vp.location
          issue_type := "missing_detail".toList
          problem := vp.issue
          action := vp.suggestion
          reference := none
          estimated_effort := "medium".toList : ActionableFeedback }) ++
       q.issues.map (fun issue =>
        { priority := if issue.severity = "high".toList then 1
                      else if issue.severity = "medium".toList then 2 else 4
          location := issue.location
          issue_type := issue.issue_type
          problem := issue.description
          action := issue.suggestion
          reference := issue.reference
          estimated_effort :=
            if issue.severity ≠ "low".toList then "medium".toList
            else "low".toList : ActionableFeedback }) ++
       r.issues.map (fun issue =>
        { priority := if issue.severity = "high".toList then 2
                      else if issue.severity = "medium".toList then 3 else 4
          location := issue.location
          issue_type := issue.issue_type
          problem := issue.description
          action := issue.suggestion
          reference := none
          estimated_effort := "low".toList : ActionableFeedback })) ∧
    ∀ p : ℤ,
      (Improver.generateFromResults d q r).filter
          (fun x => x.priority = p) =
        (d.vague_points.map (fun vp =>
          { priority := 3
            location := vp.location
            issue_type := "missing_detail".toList
            problem := vp.issue
            action := vp.suggestion
            reference := none
            estimated_effort := "medium".toList : ActionableFeedback }) ++
         q.issues.map (fun issue =>
          { priority := if issue.severity = "high".toList then 1
                        else if issue.severity = "medium".toList then 2 else 4
            location := issue.location
            issue_type := issue.issue_type
            problem := issue.description
            action := issue.suggestion
            reference := issue.reference
            estimated_effort :=
              if issue.severity ≠ "low".toList then "medium".toList
              else "low".toList : ActionableFeedback }) ++
         r.issues.map (fun issue =>
          { priority := if issue.severity = "high".toList then 2
                        else if issue.severity = "medium".toList then 3 else 4
            location := issue.location
            issue_type := issue.issue_type
            problem := issue.description
            action := issue.suggestion
            reference := none
            estimated_effort := "low".toList : ActionableFeedback })).filter
          (fun x => x.priority = p) := by
  refine ⟨?_, ?_, ?_⟩
  · exact List.Pairwise.imp (fun h => by simpa [feedbackLe] using h)
      (pySort_pairwise feedbackLe feedbackLe_trans feedbackLe_total _)
  · exact pySort_perm feedbackLe _
  · intro p
    exact pySort_filter feedbackLe (fun x => decide (x.priority = p))
      (fun x y hx hy => by
        simp only [decide_eq_true_eq] at hx hy
        simp [feedbackLe, hx, hy]) _

/-! ## Claim C2 -/

/-- C2 (amended): within one `SearchAgent.search` call the combined
result list is deduplicated by `source_url` across all its queries with
the first occurrence kept — it equals the first-occurrence dedup of the
concatenated per-query results, and its source identifiers are pairwise
distinct.  (`search_multi_round` concatenates two independent `search`
calls, so a source identifier can repeat across its two rounds; see the
counterexample.) -/
theorem search_dedup_first_wins (svc : List Char → Nat → SvcResponse)
    (queries : List (List Char)) (k : Nat) :
    SearchAgent.search (some svc) queries k =
      dedupByUrlFirst
        (queries.flatMap (fun q => SearchAgent.executeSearch svc q k)) ∧
    ∀ service : SearchService,
      ((SearchAgent.search service queries k).map
        (fun r => r.source_url)).Nodup := by
  constructor
  · show SearchAgent.searchLoop svc queries k [] [] = _
    rw [searchLoop_eq, dedupFrom_eq_dedupByUrlFirst]
    simp [List.filter_true]
  · intro service
    cases service with
    | none => simp [SearchAgent.search]
    | some svc' =>
      show ((SearchAgent.searchLoop svc' queries k [] []).map _).Nodup
      rw [searchLoop_eq]
      simpa using (dedupFrom_nodup_urls
        (queries.flatMap (fun q => SearchAgent.executeSearch svc' q k)) []).1

/-- C2 counterexample: a search service returning the same source
identifier for every query makes `search_multi_round` return two
entries with that identifier — one from each round — so the combined
list of the two rounds is not deduplicated by source identifier. -/
theorem search_multi_round_duplicate_url_cex :
    ¬ ((SearchAgent.searchMultiRound
        (some (fun _ _ => SvcResponse.list
          [{ url := some "u".toList, title := some "t".toList,
             content := some "c".toList, snippet := none }]))
        { topic := "T".toList, content_type := .unknown, core_points := [],
          key_terms := ["k".toList], fact_claims := [],
          search_queries := ["q".toList] } 2 5).map
        (fun r => r.source_url)).Nodup := by decide

/-! ## Claim C3 -/

/-- C3 (amended): when the Improver's single generation call raises or
returns an empty response, `generate` returns exactly the deterministic
fallback `_generate_from_results`; but when the call returns a payload
on which the JSON decode fails, the `json.JSONDecodeError` is caught
inside `_parse_response` and `generate` returns the empty list instead
of the fallback. -/
theorem improver_generate_failure_paths (jsonLoads : JsonLoads)
    (chat : ChatOutcome) (d : DepthCheckResult) (q : QualityReviewResult)
    (r : ReadabilityResult) :
    (chat = .error () →
      Improver.generate jsonLoads chat d q r =
        Improver.generateFromResults d q r) ∧
    (chat = .ok [] →
      Improver.generate jsonLoads chat d q r =
        Improver.generateFromResults d q r) ∧
    (∀ resp, chat = .ok resp → resp ≠ [] →
      jsonLoads (extractJson resp) = none →
      Improver.generate jsonLoads chat d q r = []) := by
  refine ⟨?_, ?_, ?_⟩
  · rintro rfl; rfl
  · rintro rfl; rfl
  · rintro resp rfl hne hjl
    simp [Improver.generate, hne, Improver.parseResponse, hjl]

/-- C3 witness: at a concrete failing decoder, a non-empty response
and concrete evaluator results, `generate` returns the empty list. -/
theorem improver_generate_failure_paths_witness :
    Improver.generate (fun _ => none) (Except.ok "oops".toList)
      DepthChecker.defaultResult QualityReviewer.defaultResult
      ReadabilityChecker.defaultResult = [] :=
  (improver_generate_failure_paths (fun _ => none) (Except.ok "oops".toList)
    DepthChecker.defaultResult QualityReviewer.defaultResult
    ReadabilityChecker.defaultResult).2.2 "oops".toList rfl (by decide) rfl

/-- C3 counterexample: with one depth vague point present and an
unparseable generation payload, `generate` returns `[]` while the
deterministic fallback is non-empty — so the claim that every
unparseable payload yields the fallback output is false. -/
theorem improver_generate_decode_failure_cex :
    Improver.generate (fun _ => none) (Except.ok "oops".toList)
      { score := 50, is_detailed_enough := false,
        vague_points := [{ location := "l1".toList, issue := "i1".toList,
                           question := "q1".toList, suggestion := "s1".toList }],
        summary := [] }
      QualityReviewer.defaultResult ReadabilityChecker.defaultResult ≠
    Improver.generateFromResults
      { score := 50, is_detailed_enough := false,
        vague_points := [{ location := "l1".toList, issue := "i1".toList,
                           question := "q1".toList, suggestion := "s1".toList }],
        summary := [] }
      QualityReviewer.defaultResult ReadabilityChecker.defaultResult := by
  decide

/-! ## Claim C6 -/

/-- C6 (amended): the Content Analyzer's JSON extraction strips
code-fence markers when a fence is present, but has no bracket-scanning
fallback: when no fence is present the stripped response itself is what
gets decoded, and if that decode fails the parse yields the default
summary of the empty text. -/
theorem extract_no_fence_fallback (s : List Char)
    (h : hasFence s = false) :
    extractJson s = pyStrip s ∧
    ∀ jl : JsonLoads, jl (pyStrip s) = none →
      ContentAnalyzer.parseResponse jl s =
        .ok (ContentAnalyzer.defaultSummary []) := by
  have hplain : pyContains (pyStrip s) fencePlain = false := h
  have hjson : pyContains (pyStrip s) fenceJson = false := by
    rw [pyContains, decide_eq_false_iff_not]
    intro hinf
    rw [pyContains, decide_eq_false_iff_not] at hplain
    exact hplain ((List.IsPrefix.isInfix (by decide)).trans hinf)
  have hx : extractJson s = pyStrip s := by
    simp [extractJson, hplain, hjson]
  refine ⟨hx, ?_⟩
  intro jl hjl
  simp [ContentAnalyzer.parseResponse, hx, hjl]

/-- C6 witness: a concrete fence-free response is decoded as stripped,
not bracket-scanned. -/
theorem extract_no_fence_fallback_witness :
    extractJson "no json here".toList = pyStrip "no json here".toList :=
  (extract_no_fence_fallback "no json here".toList (by decide)).1

/-- C6 counterexample: a response with a JSON object embedded in
non-fenced prose.  The response has no fence; the extraction returns
the whole stripped prose rather than the first-brace-to-last-brace
slice; and with a decoder that accepts exactly that slice, the
analyzer's parse still fails to the default summary — the embedded
object is not decoded. -/
theorem analyzer_no_bracket_scan_cex :
    hasFence "Result: \x7b\"a\": 1\x7d done".toList = false ∧
    extractJson "Result: \x7b\"a\": 1\x7d done".toList ≠
      bracketScan (pyStrip "Result: \x7b\"a\": 1\x7d done".toList) ∧
    bracketScan (pyStrip "Result: \x7b\"a\": 1\x7d done".toList) =
      "\x7b\"a\": 1\x7d".toList ∧
    ContentAnalyzer.parseResponse
      (fun s => if s = "\x7b\"a\": 1\x7d".toList
                then some (Json.obj [("a".toList, Json.int 1)]) else none)
      "Result: \x7b\"a\": 1\x7d done".toList =
      .ok (ContentAnalyzer.defaultSummary []) := by
  refine ⟨by decide, by decide, by decide, ?_⟩
  rfl

/-! ## Claim C7 -/

/-- C7 (amended): on a raised generation call or an empty response,
`analyze` returns the default summary of the analyzed text — unknown
type, empty claim/term lists, and one query joining the first 5 of the
first 10 whitespace tokens of the first 500 characters (no query when
those characters have no token); but on a JSON-decode failure it
returns the default summary of the empty text, whose query list is
empty regardless of the analyzed text. -/
theorem analyze_default_summary_paths (jl : JsonLoads) (content : List Char)
    (chat : ChatOutcome) :
    (chat = .error () → ContentAnalyzer.analyze jl chat content =
      ContentAnalyzer.defaultSummary content) ∧
    (chat = .ok [] → ContentAnalyzer.analyze jl chat content =
      ContentAnalyzer.defaultSummary content) ∧
    (∀ resp, chat = .ok resp → resp ≠ [] → jl (extractJson resp) = none →
      ContentAnalyzer.analyze jl chat content =
        ContentAnalyzer.defaultSummary []) ∧
    (ContentAnalyzer.defaultSummary content).content_type = .unknown ∧
    (ContentAnalyzer.defaultSummary content).core_points = [] ∧
    (ContentAnalyzer.defaultSummary content).key_terms = [] ∧
    (ContentAnalyzer.defaultSummary content).search_queries =
      (if (pySplit (pyTake content 500)).take 10 ≠ [] then
        [pyJoinSpace (((pySplit (pyTake content 500)).take 10).take 5)]
       else []) ∧
    (ContentAnalyzer.defaultSummary []).search_queries = [] := by
  refine ⟨?_, ?_, ?_, rfl, rfl, rfl, rfl, rfl⟩
  · rintro rfl; rfl
  · rintro rfl; rfl
  · rintro resp rfl hne hjl
    simp [ContentAnalyzer.analyze, hne, ContentAnalyzer.parseResponse, hjl]

/-- C7 witness: at a concrete failing decoder and non-empty text, the
decode-failure path yields the default summary of the empty text. -/
theorem analyze_default_summary_paths_witness :
    ContentAnalyzer.analyze (fun _ => none) (Except.ok "bad".toList)
      "hello world".toList = ContentAnalyzer.defaultSummary [] :=
  (analyze_default_summary_paths (fun _ => none) "hello world".toList
    (Except.ok "bad".toList)).2.2.1 "bad".toList rfl (by decide) rfl

/-- C7 counterexample: the response fails to parse while the text
"hello world" has tokens; `analyze` returns a summary with an empty
query list, not the default summary derived from the text (whose query
list is `["hello world"]`) — so the claim's description of the
parse-failure path is false. -/
theorem analyze_parse_failure_cex :
    ContentAnalyzer.analyze (fun _ => none) (Except.ok "bad".toList)
        "hello world".toList ≠
      ContentAnalyzer.defaultSummary "hello world".toList ∧
    (ContentAnalyzer.analyze (fun _ => none) (Except.ok "bad".toList)
        "hello world".toList).search_queries = [] ∧
    (ContentAnalyzer.defaultSummary "hello world".toList).search_queries =
      ["hello world".toList] := by
  refine ⟨by decide, by decide, by decide⟩
